import Mathlib

/-!
Shallow embedding of `investment_model.py` (class `InvestmentComparator`):
the deterministic Roth-401k and self-managed projectors, the progressive
tax calculators, the rebalancing-cost helper and the Monte-Carlo
volatility simulator.  Python floats are modelled by `ℚ`; Python
exceptions (`ZeroDivisionError`, use of an unbound local) by `Option`.
-/

set_option maxRecDepth 4000

/-- One row `(lower, upper, rate)` of a tax-bracket table; `upper = none`
models Python's `float('inf')` in the last row. -/
structure TaxBracket where
  lower : ℚ
  upper : Option ℚ
  rate : ℚ
deriving Repr, DecidableEq

/-- The bracket loop shared by `calculate_marginal_tax` and
`calculate_total_tax`: per bracket take
`taxable = min(upper - lower, remaining)` (all of `remaining` in the
infinite last bracket), add `taxable * rate`, subtract `taxable` from
`remaining`, and break as soon as `remaining <= 0`. -/
def totalTaxFromBrackets : List TaxBracket → ℚ → ℚ
  | [], _ => 0
  | b :: rest, remaining =>
    if remaining ≤ 0 then 0
    else
      let taxable : ℚ :=
        match b.upper with
        | none => remaining
        | some u => min (u - b.lower) remaining
      taxable * b.rate + totalTaxFromBrackets rest (remaining - taxable)

/-- The flat parameter set held on `self` in `InvestmentComparator.__init__`
(the fields the modelled methods read). -/
structure Params where
  current_age : ℕ
  retirement_age : ℕ
  passive_ratio : ℚ
  active_ratio : ℚ
  passive_trading_freq : ℚ
  active_trading_freq : ℚ
  active_st_ratio : ℚ
  active_lt_ratio : ℚ
  r_401k : ℚ
  r_passive : ℚ
  r_active : ℚ
  f_401k : ℚ
  f_passive : ℚ
  f_active : ℚ
  inflation : ℚ
  salary_growth : ℚ
  current_tax_rate : ℚ
  lt_capital_gains_tax : ℚ
  st_capital_gains_tax : ℚ
  dividend_tax : ℚ
  passive_dividend_yield : ℚ
  active_dividend_yield : ℚ
  initial_investment : ℚ
  passive_volatility : ℚ
  active_volatility : ℚ
  correlation : ℚ
  risk_free_rate : ℚ
  tax_brackets : List TaxBracket
  annual_income : ℚ
  employer_match : ℚ
  match_limit : ℚ

/-- The 2023 bracket table hard-coded in `__init__`. -/
def default_tax_brackets : List TaxBracket :=
  [⟨0, some 44725, 1/10⟩,
   ⟨44726, some 95375, 12/100⟩,
   ⟨95376, some 182100, 22/100⟩,
   ⟨182101, some 231250, 24/100⟩,
   ⟨231251, some 578125, 35/100⟩,
   ⟨578126, none, 37/100⟩]

/-- All defaults assigned in `InvestmentComparator.__init__`. -/
def defaultParams : Params where
  current_age := 22
  retirement_age := 65
  passive_ratio := 80/100
  active_ratio := 20/100
  passive_trading_freq := 2/100
  active_trading_freq := 30/100
  active_st_ratio := 60/100
  active_lt_ratio := 40/100
  r_401k := 10/100
  r_passive := 10/100
  r_active := 12/100
  f_401k := 3/1000
  f_passive := 1/1000
  f_active := 2/1000
  inflation := 3/100
  salary_growth := 4/100
  current_tax_rate := 24/100
  lt_capital_gains_tax := 15/100
  st_capital_gains_tax := 24/100
  dividend_tax := 15/100
  passive_dividend_yield := 15/1000
  active_dividend_yield := 2/100
  initial_investment := 10000
  passive_volatility := 15/100
  active_volatility := 25/100
  correlation := 5/10
  risk_free_rate := 3/100
  tax_brackets := default_tax_brackets
  annual_income := 100000
  employer_match := 3/100
  match_limit := 6/100

/-- `calculate_investment_years`: `retirement_age - current_age` (a Python
negative difference makes every `range` loop empty, matching `ℕ`
truncated subtraction). -/
def investment_years (p : Params) : ℕ :=
  p.retirement_age - p.current_age

/-- `calculate_total_tax(income)`: total tax in dollars from the bracket
loop. -/
def calculate_total_tax (p : Params) (income : ℚ) : ℚ :=
  totalTaxFromBrackets p.tax_brackets income

/-- `calculate_marginal_tax(income)`: runs the same bracket loop and
returns `total_tax / income`.  The division is unguarded in the source;
at `income = 0` Python raises `ZeroDivisionError`, modelled as `none`. -/
def calculate_marginal_tax (p : Params) (income : ℚ) : Option ℚ :=
  if income = 0 then none
  else some (totalTaxFromBrackets p.tax_brackets income / income)

/-- `calculate_true_marginal_tax(income, contribution, year=0)`:
`(totalTax(projected + contribution) - totalTax(projected)) / contribution`
with `projected = income * (1 + salary_growth)^year`. -/
def calculate_true_marginal_tax (p : Params) (income contribution : ℚ)
    (year : ℕ) : ℚ :=
  let projected_income := income * (1 + p.salary_growth) ^ year
  (calculate_total_tax p (projected_income + contribution) -
    calculate_total_tax p projected_income) / contribution

/-- `projected_capital_gains_tax(retirement_income)`: first matching row of
the hard-coded 2024 capital-gains brackets (strict lower, inclusive upper;
income outside every row keeps `base_rate = 0`), plus the 3.8% NIIT above
200000. -/
def projected_capital_gains_tax (retirement_income : ℚ) : ℚ :=
  let base_rate : ℚ :=
    if 0 < retirement_income ∧ retirement_income ≤ 44625 then 0
    else if 44626 < retirement_income ∧ retirement_income ≤ 492300 then 15/100
    else if 492301 < retirement_income then 20/100
    else 0
  if retirement_income > 200000 then base_rate + 38/1000 else base_rate

/-- `calculate_rebalancing_costs(passive_value, active_value)`: the ratio
`passive_value / total_value` is divided without a zero-total guard, so a
zero total raises `ZeroDivisionError` (`none`); otherwise tax is owed only
beyond the 5% drift threshold. -/
def calculate_rebalancing_costs (p : Params) (passive_value active_value : ℚ) :
    Option ℚ :=
  let total_value := passive_value + active_value
  if total_value = 0 then none
  else
    let current_passive_ratio := passive_value / total_value
    let target_passive_ratio := p.passive_ratio
    if |current_passive_ratio - target_passive_ratio| > 5/100 then
      some (|target_passive_ratio - current_passive_ratio| * total_value *
        p.lt_capital_gains_tax)
    else some 0

/-- `real_salary_growth = (1 + salary_growth)/(1 + inflation) - 1`, recomputed
at the top of each loop iteration in both projectors. -/
def real_salary_growth (p : Params) : ℚ :=
  (1 + p.salary_growth) / (1 + p.inflation) - 1

/-- `real_contribution = initial_investment * (1 + real_salary_growth)^year`. -/
def real_contribution (p : Params) (year : ℕ) : ℚ :=
  p.initial_investment * (1 + real_salary_growth p) ^ year

/-- `pre_tax_contribution = real_contribution * (1 + inflation)^year`. -/
def pre_tax_contribution (p : Params) (year : ℕ) : ℚ :=
  real_contribution p year * (1 + p.inflation) ^ year

/-- `projected_income = annual_income * (1 + real_salary_growth)^year`. -/
def projected_income_at (p : Params) (year : ℕ) : ℚ :=
  p.annual_income * (1 + real_salary_growth p) ^ year

/-- `total_income = projected_income * (1 + inflation)^year`. -/
def total_income_at (p : Params) (year : ℕ) : ℚ :=
  projected_income_at p year * (1 + p.inflation) ^ year

/-- The per-year employer match in `calculate_roth_401k_returns`:
`min(pre_tax_contribution, total_income * match_limit) * employer_match`. -/
def employer_contribution_at (p : Params) (year : ℕ) : ℚ :=
  min (pre_tax_contribution p year) (total_income_at p year * p.match_limit) *
    p.employer_match

/-- Loop state of `calculate_roth_401k_returns` (`last_total_income` is the
Python local `total_income` that leaks out of the loop and is reused in the
retirement-tax step). -/
structure RothState where
  roth_value : ℚ
  trad_value : ℚ
  annual_values : List ℚ
  total_contributions : ℚ
  total_employer_match : ℚ
  last_total_income : ℚ

def rothInit : RothState :=
  { roth_value := 0, trad_value := 0, annual_values := [],
    total_contributions := 0, total_employer_match := 0, last_total_income := 0 }

/-- One iteration of the `for year in range(investment_years)` loop of
`calculate_roth_401k_returns`: the full pre-tax contribution goes into the
Roth track, the employer match into the traditional track, both grow by
`1 + r_401k - f_401k`, and the inflation-deflated combined balance is
appended to `annual_values`.  (`marginal_tax`/`tax_impact` are computed in
the source but never used.) -/
def roth_year_step (p : Params) (year : ℕ) (s : RothState) : RothState :=
  let growth_rate := 1 + p.r_401k - p.f_401k
  let roth_value := (s.roth_value + pre_tax_contribution p year) * growth_rate
  let trad_value := (s.trad_value + employer_contribution_at p year) * growth_rate
  let real_value := (roth_value + trad_value) / (1 + p.inflation) ^ (year + 1)
  { roth_value := roth_value
    trad_value := trad_value
    annual_values := s.annual_values ++ [real_value]
    total_contributions := s.total_contributions + pre_tax_contribution p year
    total_employer_match := s.total_employer_match + employer_contribution_at p year
    last_total_income := total_income_at p year }

/-- Loop state after `n` iterations of the Roth projector. -/
def rothStateAfter (p : Params) : ℕ → RothState
  | 0 => rothInit
  | n + 1 => roth_year_step p n (rothStateAfter p n)

/-- The retirement tax rate applied to the traditional (employer-match)
track: `calculate_true_marginal_tax(total_income * (1+salary_growth)^years,
trad_value)`. -/
def retirement_match_tax_rate (p : Params) (s : RothState) : ℚ :=
  calculate_true_marginal_tax p
    (s.last_total_income * (1 + p.salary_growth) ^ investment_years p)
    s.trad_value 0

/-- The nominal final value of `calculate_roth_401k_returns` before the
final deflation: the Roth track untaxed, plus — only when `trad_value > 0` —
the traditional track net of the retirement marginal tax. -/
def roth_final_taxed_value (p : Params) : ℚ :=
  let s := rothStateAfter p (investment_years p)
  if s.trad_value > 0 then
    s.roth_value + s.trad_value * (1 - retirement_match_tax_rate p s)
  else s.roth_value

/-- `calculate_roth_401k_returns()` →
`(final_real_value, annual_values, total_contributions)`. -/
def calculate_roth_401k_returns (p : Params) : ℚ × List ℚ × ℚ :=
  let s := rothStateAfter p (investment_years p)
  (roth_final_taxed_value p / (1 + p.inflation) ^ investment_years p,
   s.annual_values, s.total_contributions)

/-- The in-loop marginal tax of `calculate_self_investment_returns`:
`calculate_true_marginal_tax(projected_income, pre_tax_contribution, year)`
(note: the *real* income, with the `year` exponent, unlike the Roth loop). -/
def marginal_tax_at (p : Params) (year : ℕ) : ℚ :=
  calculate_true_marginal_tax p (projected_income_at p year)
    (pre_tax_contribution p year) year

/-- `contribution = pre_tax_contribution * (1 - marginal_tax)`: the
self-managed path invests after-tax dollars. -/
def after_tax_contribution (p : Params) (year : ℕ) : ℚ :=
  pre_tax_contribution p year * (1 - marginal_tax_at p year)

/-- `passive_contribution = contribution * passive_ratio`. -/
def passive_contribution_at (p : Params) (year : ℕ) : ℚ :=
  after_tax_contribution p year * p.passive_ratio

/-- `active_contribution = contribution * (1 - passive_ratio)`. -/
def active_contribution_at (p : Params) (year : ℕ) : ℚ :=
  after_tax_contribution p year * (1 - p.passive_ratio)

/-- Post-growth passive balance: `(value + contribution) * (1 + r_passive - f_passive)`. -/
def passive_grown (p : Params) (value contribution : ℚ) : ℚ :=
  (value + contribution) * (1 + p.r_passive - p.f_passive)

/-- Post-growth active balance: `(value + contribution) * (1 + r_active - f_active)`. -/
def active_grown (p : Params) (value contribution : ℚ) : ℚ :=
  (value + contribution) * (1 + p.r_active - p.f_active)

/-- `realized_gains = active_value * active_trading_freq`, where
`active_value` is the post-growth active balance (source line 289): the
turnover fraction is applied to the whole balance. -/
def active_realized_gains (p : Params) (value contribution : ℚ) : ℚ :=
  active_grown p value contribution * p.active_trading_freq

/-- The blended rate on realized trading gains:
`0.6 * st_capital_gains_tax + 0.4 * lt_capital_gains_tax` (the literals
`0.6`/`0.4` are hard-coded at source lines 294-295). -/
def realized_gains_tax_rate (p : Params) : ℚ :=
  6/10 * p.st_capital_gains_tax + 4/10 * p.lt_capital_gains_tax

/-- Loop state of `calculate_self_investment_returns`; `last_real_value`
models the Python local `real_value` (unbound before the first iteration,
hence `Option`). -/
structure SelfState where
  passive_value : ℚ
  active_value : ℚ
  total_contributions : ℚ
  annual_values : List ℚ
  passive_cost_basis : ℚ
  active_cost_basis : ℚ
  passive_unrealized_gains : ℚ
  active_unrealized_gains : ℚ
  last_real_value : Option ℚ

def selfInit : SelfState :=
  { passive_value := 0, active_value := 0, total_contributions := 0,
    annual_values := [], passive_cost_basis := 0, active_cost_basis := 0,
    passive_unrealized_gains := 0, active_unrealized_gains := 0,
    last_real_value := none }

/-- One iteration of the `for year in range(...)` loop of
`calculate_self_investment_returns`.  Each pool pair is
`(new balance, new unrealized-gains tracker)`. -/
def self_year_step (p : Params) (year : ℕ) (s : SelfState) : SelfState :=
  let passive_contribution := passive_contribution_at p year
  let active_contribution := active_contribution_at p year
  let pPair : ℚ × ℚ :=
    if s.passive_value > 0 ∨ passive_contribution > 0 then
      let grown := passive_grown p s.passive_value passive_contribution
      let passive_growth := grown - (s.passive_value + passive_contribution)
      let passive_dividend_tax := grown * p.passive_dividend_yield * p.dividend_tax
      (grown - passive_dividend_tax, s.passive_unrealized_gains + passive_growth)
    else (passive_contribution, s.passive_unrealized_gains)
  let aPair : ℚ × ℚ :=
    if p.active_ratio > 0 then
      if s.active_value > 0 ∨ active_contribution > 0 then
        let grown := active_grown p s.active_value active_contribution
        let active_growth := grown - (s.active_value + active_contribution)
        let realized_gains := active_realized_gains p s.active_value active_contribution
        let unrealized_gains := active_growth - realized_gains
        let realized_gains_tax := realized_gains * realized_gains_tax_rate p
        let active_dividend_tax := grown * p.active_dividend_yield * p.dividend_tax
        (grown - realized_gains_tax - active_dividend_tax,
         s.active_unrealized_gains + unrealized_gains)
      else (active_contribution, s.active_unrealized_gains)
    else (s.active_value, s.active_unrealized_gains)
  let total_value := pPair.1 + aPair.1
  let real_value := total_value / (1 + p.inflation) ^ (year + 1)
  { passive_value := pPair.1
    active_value := aPair.1
    total_contributions := s.total_contributions + after_tax_contribution p year
    annual_values := s.annual_values ++ [real_value]
    passive_cost_basis := s.passive_cost_basis + passive_contribution
    active_cost_basis := s.active_cost_basis + active_contribution
    passive_unrealized_gains := pPair.2
    active_unrealized_gains := aPair.2
    last_real_value := some real_value }

/-- Loop state after `n` iterations of the self-managed projector. -/
def selfStateAfter (p : Params) : ℕ → SelfState
  | 0 => selfInit
  | n + 1 => self_year_step p n (selfStateAfter p n)

/-- Combined nominal balance after `n` loop iterations. -/
def self_nominal_total_after (p : Params) (n : ℕ) : ℚ :=
  (selfStateAfter p n).passive_value + (selfStateAfter p n).active_value

/-- `final_income = annual_income * (1 + salary_growth)^investment_years`. -/
def final_retirement_income (p : Params) : ℚ :=
  p.annual_income * (1 + p.salary_growth) ^ investment_years p

/-- The final liquidation tax:
`(unrealized gains) * (liquidation_percent/100) * projected_capital_gains_tax(final_income)`. -/
def self_liquidation_tax (p : Params) (liquidation_percent : ℚ) : ℚ :=
  let s := selfStateAfter p (investment_years p)
  (s.passive_unrealized_gains + s.active_unrealized_gains) *
    (liquidation_percent / 100) *
    projected_capital_gains_tax (final_retirement_income p)

/-- `calculate_self_investment_returns(liquidation_percent)` →
`(real_value, annual_values, total_contributions)`.  `real_value` is
recomputed only inside the `if unrealized gains > 0` branch; otherwise the
stale loop local is returned (unbound when the loop never ran). -/
def calculate_self_investment_returns (p : Params) (liquidation_percent : ℚ) :
    Option ℚ × List ℚ × ℚ :=
  let s := selfStateAfter p (investment_years p)
  let total_value := s.passive_value + s.active_value
  if s.passive_unrealized_gains + s.active_unrealized_gains > 0 then
    (some ((total_value - self_liquidation_tax p liquidation_percent) /
       (1 + p.inflation) ^ investment_years p),
     s.annual_values, s.total_contributions)
  else
    (s.last_real_value, s.annual_values, s.total_contributions)

/-- Modelled from the spec (§4.3): "realize `tradingTurnoverRate ×
unrealizedGain` each year" — the realized-gain rule as the spec words it,
for comparison with `active_realized_gains` taken from the source. -/
def spec_active_realized_gains (p : Params) (unrealized_gain : ℚ) : ℚ :=
  p.active_trading_freq * unrealized_gain

/-- The realized gains the source taxes in year `y` of the self-managed
loop (when the active branch runs). -/
def active_realized_gains_at (p : Params) (y : ℕ) : ℚ :=
  active_realized_gains p (selfStateAfter p y).active_value (active_contribution_at p y)

/-- The active pool's unrealized gain available in year `y`: the tracker
carried into the year plus the growth accrued in year `y`. -/
def active_gain_before_realization (p : Params) (y : ℕ) : ℚ :=
  (selfStateAfter p y).active_unrealized_gains +
    (active_grown p (selfStateAfter p y).active_value (active_contribution_at p y) -
      ((selfStateAfter p y).active_value + active_contribution_at p y))

/-- `num_simulations = 1000` in `calculate_returns_with_volatility`. -/
def num_simulations : ℕ := 1000

/-- The annual-compounding loop of `calculate_returns_with_volatility`
(non-Roth branch): grow only a positive balance by the drawn pool returns
net of blended fees, then add the year's contribution and record it. -/
def vol_loop (p : Params) (pr ar : ℕ → ℚ) : ℕ → ℚ × List ℚ
  | 0 => (0, [])
  | y + 1 =>
    let prev := vol_loop p pr ar y
    let contribution := p.initial_investment * (1 + p.salary_growth) ^ y
    let grown :=
      if prev.1 > 0 then
        (prev.1 + prev.1 * p.passive_ratio * pr y + prev.1 * p.active_ratio * ar y) *
          (1 - p.f_passive * p.passive_ratio - p.f_active * p.active_ratio)
      else prev.1
    let total := grown + contribution
    (total, prev.2 ++ [total])

/-- One simulated path of `calculate_returns_with_volatility`, fed by the
raw Student-t draws `tDraws`.  In the `is_roth` branch the source draws a
return vector but the entire `for year in range(...)` loop sits in the
`else` branch, so `total_value` stays `0` and `annual_values` stays empty. -/
def volatility_sim_path (p : Params) (is_roth : Bool) (tDraws : ℕ → ℚ × ℚ) :
    ℚ × List ℚ :=
  if is_roth then (0, [])
  else
    vol_loop p (fun y => (tDraws y).1 * p.passive_volatility + p.r_passive)
      (fun y => (tDraws y).2 * p.active_volatility + p.r_active)
      (investment_years p)

/-- `calculate_returns_with_volatility(is_roth)` →
`(mean_final_value, annual_values_all, simulation_results)`, with the
per-path Student-t draws supplied as `tDraws path year`. -/
def calculate_returns_with_volatility (p : Params) (is_roth : Bool)
    (tDraws : ℕ → ℕ → ℚ × ℚ) : ℚ × List (List ℚ) × List ℚ :=
  let paths := (List.range num_simulations).map (fun i =>
    let path := volatility_sim_path p is_roth (tDraws i)
    (path.1 / (1 + p.inflation) ^ investment_years p, path.2))
  let simulation_results := paths.map Prod.fst
  let annual_values_all := paths.map Prod.snd
  (simulation_results.sum / (simulation_results.length : ℚ),
   annual_values_all, simulation_results)

/-- Parameters for concrete checks: one active-only dollar pool with zero
taxes from an empty bracket table, 10% active return, 50% turnover. -/
def cxParams : Params :=
  { defaultParams with
    tax_brackets := [], passive_ratio := 0, active_ratio := 1,
    r_active := 1/10, f_active := 0, active_trading_freq := 1/2,
    initial_investment := 100, salary_growth := 0, inflation := 0 }

/-- Default parameters with a zero employer-match rate. -/
def noMatchParams : Params := { defaultParams with employer_match := 0 }

example : investment_years defaultParams = 43 := by decide
example : calculate_total_tax defaultParams 0 = 0 := by norm_num [calculate_total_tax, default_tax_brackets, totalTaxFromBrackets, defaultParams]
example : calculate_total_tax defaultParams 40000 = 4000 := by norm_num [calculate_total_tax, default_tax_brackets, totalTaxFromBrackets, defaultParams]
example : calculate_rebalancing_costs defaultParams 0 0 = none := by norm_num [calculate_rebalancing_costs]
example : calculate_rebalancing_costs defaultParams 80 20 = some 0 := by norm_num [calculate_rebalancing_costs, defaultParams]

/-! ### Generic lemmas about the bracket loop -/

theorem totalTax_nonpos_input (bs : List TaxBracket) (x : ℚ) (hx : x ≤ 0) :
    totalTaxFromBrackets bs x = 0 := by
  cases bs with
  | nil => rfl
  | cons b rest => simp [totalTaxFromBrackets, if_pos hx]

theorem totalTax_nonneg (bs : List TaxBracket) :
    (∀ b ∈ bs, 0 ≤ b.rate) →
    (∀ b ∈ bs, ∀ u, b.upper = some u → b.lower ≤ u) →
    ∀ x : ℚ, 0 ≤ totalTaxFromBrackets bs x := by
  induction bs with
  | nil => intro _ _ x; simp [totalTaxFromBrackets]
  | cons b rest ih =>
    intro hr hw x
    have hrb : 0 ≤ b.rate := hr b (List.mem_cons_self b rest)
    have hr' : ∀ c ∈ rest, 0 ≤ c.rate := fun c hc => hr c (List.mem_cons_of_mem b hc)
    have hw' : ∀ c ∈ rest, ∀ u, c.upper = some u → c.lower ≤ u :=
      fun c hc => hw c (List.mem_cons_of_mem b hc)
    by_cases hx : x ≤ 0
    · simp [totalTaxFromBrackets, if_pos hx]
    · push_neg at hx
      simp only [totalTaxFromBrackets, if_neg (not_le.mpr hx)]
      cases hub : b.upper with
      | none =>
        simp only
        refine add_nonneg (mul_nonneg hx.le hrb) ?_
        exact ih hr' hw' _
      | some u =>
        have hwu : b.lower ≤ u := hw b (List.mem_cons_self b rest) u hub
        simp only
        refine add_nonneg (mul_nonneg (le_min (by linarith) hx.le) hrb) ?_
        exact ih hr' hw' _

theorem sub_min_mono {w x y : ℚ} (hxy : x ≤ y) : x - min w x ≤ y - min w y := by
  rcases le_total w x with h | h
  · rw [min_eq_left h, min_eq_left (le_trans h hxy)]; linarith
  · rw [min_eq_right h]
    have : min w y ≤ y := min_le_right w y
    linarith

theorem totalTax_mono (bs : List TaxBracket) :
    (∀ b ∈ bs, 0 ≤ b.rate) →
    (∀ b ∈ bs, ∀ u, b.upper = some u → b.lower ≤ u) →
    ∀ x y : ℚ, x ≤ y →
      totalTaxFromBrackets bs x ≤ totalTaxFromBrackets bs y := by
  induction bs with
  | nil => intro _ _ x y _; simp [totalTaxFromBrackets]
  | cons b rest ih =>
    intro hr hw x y hxy
    have hrb : 0 ≤ b.rate := hr b (List.mem_cons_self b rest)
    have hr' : ∀ c ∈ rest, 0 ≤ c.rate := fun c hc => hr c (List.mem_cons_of_mem b hc)
    have hw' : ∀ c ∈ rest, ∀ u, c.upper = some u → c.lower ≤ u :=
      fun c hc => hw c (List.mem_cons_of_mem b hc)
    by_cases hy : y ≤ 0
    · rw [totalTax_nonpos_input _ _ (le_trans hxy hy), totalTax_nonpos_input _ _ hy]
    · by_cases hx : x ≤ 0
      · rw [totalTax_nonpos_input _ _ hx]
        exact totalTax_nonneg _ hr hw y
      · simp only [totalTaxFromBrackets, if_neg hx, if_neg hy]
        cases hub : b.upper with
        | none =>
          simp only
          rw [sub_self, sub_self]
          exact add_le_add (mul_le_mul_of_nonneg_right hxy hrb) le_rfl
        | some u =>
          simp only
          refine add_le_add (mul_le_mul_of_nonneg_right (min_le_min le_rfl hxy) hrb) ?_
          exact ih hr' hw' _ _ (sub_min_mono hxy)

/-! ### Claim theorems: tax calculator and rebalancing -/

/-- Claim C7: for the configured bracket table, `calculate_total_tax` is
monotonically non-decreasing in income, and is `0` at income `0`. -/
theorem c7_total_tax_monotone :
    (∀ a b : ℚ, a ≤ b →
      calculate_total_tax defaultParams a ≤ calculate_total_tax defaultParams b) ∧
    calculate_total_tax defaultParams 0 = 0 := by
  constructor
  · intro a b hab
    have hr : ∀ br ∈ defaultParams.tax_brackets, 0 ≤ br.rate := by
      intro br hbr
      simp only [defaultParams, default_tax_brackets, List.mem_cons,
        List.not_mem_nil, or_false] at hbr
      rcases hbr with h | h | h | h | h | h <;> subst h <;> norm_num
    have hw : ∀ br ∈ defaultParams.tax_brackets, ∀ u, br.upper = some u → br.lower ≤ u := by
      intro br hbr u hu
      simp only [defaultParams, default_tax_brackets, List.mem_cons,
        List.not_mem_nil, or_false] at hbr
      rcases hbr with h | h | h | h | h | h <;> subst h <;>
        simp only [Option.some.injEq, reduceCtorEq] at hu <;> subst hu <;> norm_num
    simp only [calculate_total_tax]
    exact totalTax_mono _ hr hw a b hab
  · simp [calculate_total_tax, totalTax_nonpos_input]

/-- Witness for C7 at the concrete incomes 100 ≤ 200. -/
theorem c7_witness :
    calculate_total_tax defaultParams 100 ≤ calculate_total_tax defaultParams 200 ∧
    calculate_total_tax defaultParams 0 = 0 :=
  ⟨c7_total_tax_monotone.1 100 200 (by norm_num), c7_total_tax_monotone.2⟩

/-- Claim C2: for income ≤ 0 the effective-rate operation
`calculate_marginal_tax` either fails (`none`, the `ZeroDivisionError`
surfaced at income = 0) or returns 0 (income < 0, where the bracket loop
produces zero tax). -/
theorem c2_effective_rate_nonpositive_income (p : Params) (income : ℚ)
    (h : income ≤ 0) :
    calculate_marginal_tax p income = none ∨
    calculate_marginal_tax p income = some 0 := by
  rcases h.lt_or_eq with hlt | heq
  · right
    rw [calculate_marginal_tax, if_neg (ne_of_lt hlt),
      totalTax_nonpos_input _ _ h, zero_div]
  · left
    rw [calculate_marginal_tax, if_pos heq]

/-- Witness for C2 at income = -100. -/
theorem c2_witness :
    calculate_marginal_tax defaultParams (-100) = none ∨
    calculate_marginal_tax defaultParams (-100) = some 0 :=
  c2_effective_rate_nonpositive_income defaultParams (-100) (by norm_num)

/-- Counterexample to C5: at `passive_value = active_value = 0` the
rebalancing computation divides by the zero total (a `ZeroDivisionError`,
`none`), and in particular does not return 0. -/
theorem c5_counterexample :
    calculate_rebalancing_costs defaultParams 0 0 = none ∧
    calculate_rebalancing_costs defaultParams 0 0 ≠ some 0 := by
  simp [calculate_rebalancing_costs]

/-- Claim C5 (amended): whenever the total portfolio value is zero,
`calculate_rebalancing_costs` fails on the unguarded zero-denominator
ratio instead of returning 0. -/
theorem c5_zero_total_fails (p : Params) (pv av : ℚ) (h : pv + av = 0) :
    calculate_rebalancing_costs p pv av = none := by
  simp [calculate_rebalancing_costs, h]

/-- Witness for the amended C5 at the concrete input (0, 0). -/
theorem c5_witness : calculate_rebalancing_costs defaultParams 0 0 = none :=
  c5_zero_total_fails defaultParams 0 0 (by norm_num)

/-- Claim C9: with a positive total whose passive share is exactly the
target ratio, `calculate_rebalancing_costs` returns 0. -/
theorem c9_rebalancing_idempotent (p : Params) (pv av : ℚ)
    (hpos : 0 < pv + av) (htarget : pv / (pv + av) = p.passive_ratio) :
    calculate_rebalancing_costs p pv av = some 0 := by
  simp only [calculate_rebalancing_costs]
  rw [if_neg (ne_of_gt hpos), htarget]
  norm_num

/-- Witness for C9 at the concrete allocation (80, 20) with the default
0.8 target. -/
theorem c9_witness : calculate_rebalancing_costs defaultParams 80 20 = some 0 :=
  c9_rebalancing_idempotent defaultParams 80 20 (by norm_num)
    (by norm_num [defaultParams])

/-! ### Claim theorems: active-pool realized gains (C1) -/

/-- Counterexample to C1: in year 0 of `cxParams` (active pool processed,
contribution 100, growth 10, post-growth balance 110, turnover 1/2) the
source realizes `110 * 1/2 = 55`, not `tradingTurnoverRate ×
unrealizedGain = 1/2 * 10 = 5`: the turnover is applied to the balance,
not to the unrealized gain. -/
theorem c1_counterexample :
    active_realized_gains_at cxParams 0 ≠
      spec_active_realized_gains cxParams (active_gain_before_realization cxParams 0) := by
  norm_num [active_realized_gains_at, spec_active_realized_gains,
    active_gain_before_realization, selfStateAfter, selfInit, active_realized_gains,
    active_grown, active_contribution_at, after_tax_contribution, marginal_tax_at,
    pre_tax_contribution, real_contribution, projected_income_at,
    calculate_true_marginal_tax, calculate_total_tax, cxParams, defaultParams,
    totalTaxFromBrackets, real_salary_growth]

/-- Claim C1 (amended): in every year in which the active pool is
processed, the realized gains taxed equal `active_trading_freq` times the
active pool's *post-growth balance* (not its unrealized gain), taxed at
the 60% short-term / 40% long-term blend, and the tracked unrealized gain
becomes the gain accrued through this year minus that realized portion. -/
theorem c1_active_realized_from_balance (p : Params) (y : ℕ)
    (hratio : p.active_ratio > 0)
    (hrun : (selfStateAfter p y).active_value > 0 ∨ active_contribution_at p y > 0) :
    (selfStateAfter p (y+1)).active_value =
      active_grown p (selfStateAfter p y).active_value (active_contribution_at p y)
        - active_realized_gains_at p y * realized_gains_tax_rate p
        - active_grown p (selfStateAfter p y).active_value (active_contribution_at p y) *
            p.active_dividend_yield * p.dividend_tax
    ∧ (selfStateAfter p (y+1)).active_unrealized_gains =
        active_gain_before_realization p y - active_realized_gains_at p y
    ∧ active_realized_gains_at p y =
        active_grown p (selfStateAfter p y).active_value (active_contribution_at p y) *
          p.active_trading_freq := by
  simp only [selfStateAfter, self_year_step, if_pos hratio, if_pos hrun]
  refine ⟨rfl, ?_, rfl⟩
  simp only [active_gain_before_realization, active_realized_gains_at]
  ring

/-- Witness for the amended C1 at `cxParams`, year 0: the hypotheses hold
(active ratio 1 > 0, contribution 100 > 0) and the tracker update is as
stated. -/
theorem c1_witness :
    cxParams.active_ratio > 0 ∧
    ((selfStateAfter cxParams 0).active_value > 0 ∨
      active_contribution_at cxParams 0 > 0) ∧
    (selfStateAfter cxParams 1).active_unrealized_gains =
      active_gain_before_realization cxParams 0 -
        active_realized_gains_at cxParams 0 := by
  have h1 : cxParams.active_ratio > 0 := by norm_num [cxParams, defaultParams]
  have h2 : (selfStateAfter cxParams 0).active_value > 0 ∨
      active_contribution_at cxParams 0 > 0 := by
    right
    norm_num [selfStateAfter, selfInit, active_contribution_at,
      after_tax_contribution, marginal_tax_at, pre_tax_contribution,
      real_contribution, projected_income_at, calculate_true_marginal_tax,
      calculate_total_tax, cxParams, defaultParams, totalTaxFromBrackets,
      real_salary_growth]
  exact ⟨h1, h2, (c1_active_realized_from_balance cxParams 0 h1 h2).2.1⟩

/-! ### Claim theorems: Roth projector per-year recurrence (C6) -/

/-- Claim C6: in every year of the tax-advantaged projection, the employer
match is `min(contribution, income * match_limit) * employer_match`, it
accumulates in the separate traditional track, and both tracks grow by
`1 + r_401k - f_401k` after the year's contribution/match is added. -/
theorem c6_match_formula_and_growth (p : Params) (y : ℕ)
    (_hy : y < investment_years p) :
    (rothStateAfter p (y+1)).roth_value =
      ((rothStateAfter p y).roth_value + pre_tax_contribution p y) *
        (1 + p.r_401k - p.f_401k)
    ∧ (rothStateAfter p (y+1)).trad_value =
      ((rothStateAfter p y).trad_value +
        min (pre_tax_contribution p y) (total_income_at p y * p.match_limit) *
          p.employer_match) * (1 + p.r_401k - p.f_401k)
    ∧ (rothStateAfter p (y+1)).total_employer_match =
      (rothStateAfter p y).total_employer_match +
        min (pre_tax_contribution p y) (total_income_at p y * p.match_limit) *
          p.employer_match := by
  refine ⟨rfl, ?_, ?_⟩ <;>
    simp only [rothStateAfter, roth_year_step, employer_contribution_at]

/-- Witness for C6 at the default configuration, year 0 (0 < 43). -/
theorem c6_witness :
    (rothStateAfter defaultParams 1).roth_value =
      ((rothStateAfter defaultParams 0).roth_value +
        pre_tax_contribution defaultParams 0) *
        (1 + defaultParams.r_401k - defaultParams.f_401k)
    ∧ (rothStateAfter defaultParams 1).trad_value =
      ((rothStateAfter defaultParams 0).trad_value +
        min (pre_tax_contribution defaultParams 0)
          (total_income_at defaultParams 0 * defaultParams.match_limit) *
          defaultParams.employer_match) *
        (1 + defaultParams.r_401k - defaultParams.f_401k)
    ∧ (rothStateAfter defaultParams 1).total_employer_match =
      (rothStateAfter defaultParams 0).total_employer_match +
        min (pre_tax_contribution defaultParams 0)
          (total_income_at defaultParams 0 * defaultParams.match_limit) *
          defaultParams.employer_match :=
  c6_match_formula_and_growth defaultParams 0 (by decide)

/-! ### Claim theorems: final tax on the matched balance only (C3) -/

theorem trad_zero_of_no_match (p : Params) (h : p.employer_match = 0) :
    ∀ n, (rothStateAfter p n).trad_value = 0 := by
  intro n
  induction n with
  | zero => rfl
  | succ n ih =>
    simp [rothStateAfter, roth_year_step, employer_contribution_at, h, ih]

/-- Claim C3: the end-of-projection value taxes only the traditional
(employer-match) track, at the projected marginal rate, leaving the Roth
track untaxed, and deflates the sum by the full horizon; with a zero match
rate the match-tax step is skipped and the pure Roth value is reported. -/
theorem c3_final_tax_on_match_only (p : Params) :
    ((calculate_roth_401k_returns p).1 =
      (if (rothStateAfter p (investment_years p)).trad_value > 0 then
        (rothStateAfter p (investment_years p)).roth_value +
          (rothStateAfter p (investment_years p)).trad_value *
            (1 - retirement_match_tax_rate p (rothStateAfter p (investment_years p)))
       else (rothStateAfter p (investment_years p)).roth_value) /
        (1 + p.inflation) ^ investment_years p)
    ∧ (p.employer_match = 0 →
        (calculate_roth_401k_returns p).1 =
          (rothStateAfter p (investment_years p)).roth_value /
            (1 + p.inflation) ^ investment_years p) := by
  constructor
  · rfl
  · intro h
    simp only [calculate_roth_401k_returns, roth_final_taxed_value]
    rw [trad_zero_of_no_match p h]
    simp

/-- Witness for C3 at the zero-match configuration. -/
theorem c3_witness :
    noMatchParams.employer_match = 0 ∧
    (calculate_roth_401k_returns noMatchParams).1 =
      (rothStateAfter noMatchParams (investment_years noMatchParams)).roth_value /
        (1 + noMatchParams.inflation) ^ investment_years noMatchParams :=
  ⟨rfl, (c3_final_tax_on_match_only noMatchParams).2 rfl⟩

/-! ### Claim theorems: full-horizon deflation in both branches (C4) -/

theorem self_last_real_value (p : Params) (n : ℕ) :
    (selfStateAfter p (n+1)).last_real_value =
      some (self_nominal_total_after p (n+1) / (1 + p.inflation) ^ (n+1)) := rfl

theorem self_annual_values_closed (p : Params) :
    ∀ n, (selfStateAfter p n).annual_values =
      (List.range n).map
        (fun i => self_nominal_total_after p (i+1) / (1 + p.inflation) ^ (i+1)) := by
  intro n
  induction n with
  | zero => rfl
  | succ n ih =>
    rw [List.range_succ, List.map_append]
    show (selfStateAfter p n).annual_values ++ _ = _
    rw [ih]
    rfl

/-- Claim C4: for at least one projection year, the returned
`finalRealValue` is the final nominal total (net of the liquidation tax
when unrealized gains are positive) deflated by
`(1+inflation)^investment_years` in *both* liquidation branches — the
stale loop value returned by the untaken branch carries the same
full-horizon divisor — and every annual entry is the year's nominal total
deflated by `(1+inflation)^(yearIndex+1)`. -/
theorem c4_full_horizon_deflation (p : Params) (lq : ℚ)
    (h : 1 ≤ investment_years p) :
    (calculate_self_investment_returns p lq).1 =
      some ((if 0 < (selfStateAfter p (investment_years p)).passive_unrealized_gains +
                  (selfStateAfter p (investment_years p)).active_unrealized_gains
             then self_nominal_total_after p (investment_years p) -
                  self_liquidation_tax p lq
             else self_nominal_total_after p (investment_years p)) /
        (1 + p.inflation) ^ investment_years p)
    ∧ (calculate_self_investment_returns p lq).2.1 =
      (List.range (investment_years p)).map
        (fun i => self_nominal_total_after p (i+1) / (1 + p.inflation) ^ (i+1)) := by
  obtain ⟨m, hm⟩ : ∃ m, investment_years p = m + 1 :=
    ⟨investment_years p - 1, by omega⟩
  constructor
  · simp only [calculate_self_investment_returns]
    by_cases hg : 0 < (selfStateAfter p (investment_years p)).passive_unrealized_gains +
        (selfStateAfter p (investment_years p)).active_unrealized_gains
    · rw [if_pos hg, if_pos hg]
      rfl
    · rw [if_neg hg, if_neg hg]
      rw [hm]
      exact self_last_real_value p m
  · simp only [calculate_self_investment_returns]
    by_cases hg : 0 < (selfStateAfter p (investment_years p)).passive_unrealized_gains +
        (selfStateAfter p (investment_years p)).active_unrealized_gains
    · rw [if_pos hg]
      exact self_annual_values_closed p _
    · rw [if_neg hg]
      exact self_annual_values_closed p _

/-- Witness for C4 at the default configuration (43 years ≥ 1),
liquidation percent 100. -/
theorem c4_witness :
    1 ≤ investment_years defaultParams ∧
    (calculate_self_investment_returns defaultParams 100).2.1 =
      (List.range (investment_years defaultParams)).map
        (fun i => self_nominal_total_after defaultParams (i+1) /
          (1 + defaultParams.inflation) ^ (i+1)) :=
  ⟨by decide, (c4_full_horizon_deflation defaultParams 100 (by decide)).2⟩

/-! ### Claim theorems: Roth branch of the volatility simulator (C10) -/

/-- Claim C10: with `is_roth = True` the compounding loop of
`calculate_returns_with_volatility` sits in the unreached `else` branch,
so for every configuration and every draw stream each path keeps a zero
balance and an empty trajectory: the mean is 0, all 1000 trajectories are
empty and all 1000 final-value samples are 0. -/
theorem c10_roth_branch_skips_loop (p : Params) (tDraws : ℕ → ℕ → ℚ × ℚ) :
    (calculate_returns_with_volatility p true tDraws).1 = 0
    ∧ (calculate_returns_with_volatility p true tDraws).2.1 =
        List.replicate num_simulations ([] : List ℚ)
    ∧ (calculate_returns_with_volatility p true tDraws).2.2 =
        List.replicate num_simulations (0 : ℚ) := by
  have hpath :
      (List.range num_simulations).map (fun i =>
        ((volatility_sim_path p true (tDraws i)).1 /
          (1 + p.inflation) ^ investment_years p,
         (volatility_sim_path p true (tDraws i)).2)) =
      List.replicate num_simulations ((0 : ℚ), ([] : List ℚ)) := by
    rw [show (fun i =>
        ((volatility_sim_path p true (tDraws i)).1 /
          (1 + p.inflation) ^ investment_years p,
         (volatility_sim_path p true (tDraws i)).2)) =
        (fun _ : ℕ => ((0 : ℚ), ([] : List ℚ))) from ?_]
    · rw [List.map_const', List.length_range]
    · funext i
      simp [volatility_sim_path]
  refine ⟨?_, ?_, ?_⟩ <;>
    simp only [calculate_returns_with_volatility] <;> rw [hpath] <;>
      simp [List.map_replicate, List.sum_replicate]

/-! ### Claim theorems: determinism / no hidden inputs (C8) -/

/-- Claim C8: both deterministic projectors are pure functions of the
listed configuration fields alone — two parameter sets agreeing on every
field the projectors read produce identical results for
`calculate_roth_401k_returns` and (for every liquidation percent)
`calculate_self_investment_returns`; no randomness or state outside the
configuration (in particular none of the volatility / Monte-Carlo fields)
can influence them. -/
theorem c8_projectors_deterministic (p q : Params)
    (h1 : p.current_age = q.current_age)
    (h2 : p.retirement_age = q.retirement_age)
    (h3 : p.salary_growth = q.salary_growth)
    (h4 : p.inflation = q.inflation)
    (h5 : p.initial_investment = q.initial_investment)
    (h6 : p.annual_income = q.annual_income)
    (h7 : p.tax_brackets = q.tax_brackets)
    (h8 : p.r_401k = q.r_401k)
    (h9 : p.f_401k = q.f_401k)
    (h10 : p.employer_match = q.employer_match)
    (h11 : p.match_limit = q.match_limit)
    (h12 : p.passive_ratio = q.passive_ratio)
    (h13 : p.active_ratio = q.active_ratio)
    (h14 : p.r_passive = q.r_passive)
    (h15 : p.f_passive = q.f_passive)
    (h16 : p.r_active = q.r_active)
    (h17 : p.f_active = q.f_active)
    (h18 : p.passive_dividend_yield = q.passive_dividend_yield)
    (h19 : p.active_dividend_yield = q.active_dividend_yield)
    (h20 : p.dividend_tax = q.dividend_tax)
    (h21 : p.active_trading_freq = q.active_trading_freq)
    (h22 : p.st_capital_gains_tax = q.st_capital_gains_tax)
    (h23 : p.lt_capital_gains_tax = q.lt_capital_gains_tax) :
    calculate_roth_401k_returns p = calculate_roth_401k_returns q ∧
    ∀ lq : ℚ, calculate_self_investment_returns p lq =
      calculate_self_investment_returns q lq := by
  have hty : investment_years p = investment_years q := by
    simp only [investment_years, h1, h2]
  have htt : calculate_total_tax p = calculate_total_tax q := by
    funext x
    simp only [calculate_total_tax, h7]
  have htm : calculate_true_marginal_tax p = calculate_true_marginal_tax q := by
    funext i c y
    simp only [calculate_true_marginal_tax, h3, htt]
  have hrsg : real_salary_growth p = real_salary_growth q := by
    simp only [real_salary_growth, h3, h4]
  have hptc : pre_tax_contribution p = pre_tax_contribution q := by
    funext y
    simp only [pre_tax_contribution, real_contribution, hrsg, h4, h5]
  have hpri : projected_income_at p = projected_income_at q := by
    funext y
    simp only [projected_income_at, hrsg, h6]
  have hti : total_income_at p = total_income_at q := by
    funext y
    simp only [total_income_at, hpri, h4]
  have hec : employer_contribution_at p = employer_contribution_at q := by
    funext y
    simp only [employer_contribution_at, hptc, hti, h10, h11]
  have hstep : roth_year_step p = roth_year_step q := by
    funext y s
    simp only [roth_year_step, h4, h8, h9, hptc, hec, hti]
  have hstate : ∀ n, rothStateAfter p n = rothStateAfter q n := by
    intro n
    induction n with
    | zero => rfl
    | succ n ih => simp only [rothStateAfter, hstep, ih]
  have hrmt : retirement_match_tax_rate p = retirement_match_tax_rate q := by
    funext s
    simp only [retirement_match_tax_rate, htm, h3, hty]
  have hmt : marginal_tax_at p = marginal_tax_at q := by
    funext y
    simp only [marginal_tax_at, htm, hpri, hptc]
  have hatc : after_tax_contribution p = after_tax_contribution q := by
    funext y
    simp only [after_tax_contribution, hptc, hmt]
  have hpc : passive_contribution_at p = passive_contribution_at q := by
    funext y
    simp only [passive_contribution_at, hatc, h12]
  have hac : active_contribution_at p = active_contribution_at q := by
    funext y
    simp only [active_contribution_at, hatc, h12]
  have hpg : passive_grown p = passive_grown q := by
    funext v c
    simp only [passive_grown, h14, h15]
  have hag : active_grown p = active_grown q := by
    funext v c
    simp only [active_grown, h16, h17]
  have harg : active_realized_gains p = active_realized_gains q := by
    funext v c
    simp only [active_realized_gains, hag, h21]
  have hrgr : realized_gains_tax_rate p = realized_gains_tax_rate q := by
    simp only [realized_gains_tax_rate, h22, h23]
  have hsstep : self_year_step p = self_year_step q := by
    funext y s
    simp only [self_year_step, hpc, hac, hpg, hag, harg, hrgr, hatc,
      h4, h13, h18, h19, h20]
  have hsstate : ∀ n, selfStateAfter p n = selfStateAfter q n := by
    intro n
    induction n with
    | zero => rfl
    | succ n ih => simp only [selfStateAfter, hsstep, ih]
  have hfri : final_retirement_income p = final_retirement_income q := by
    simp only [final_retirement_income, h6, h3, hty]
  have hlt : self_liquidation_tax p = self_liquidation_tax q := by
    funext lq
    simp only [self_liquidation_tax, hsstate, hfri, hty]
  constructor
  · simp only [calculate_roth_401k_returns, roth_final_taxed_value,
      hty, hstate, hrmt, h4]
  · intro lq
    simp only [calculate_self_investment_returns, hty, hsstate, hlt, h4]

/-- Witness for C8: the two invocations at the default configuration
agree. -/
theorem c8_witness :
    calculate_roth_401k_returns defaultParams =
      calculate_roth_401k_returns defaultParams ∧
    ∀ lq : ℚ, calculate_self_investment_returns defaultParams lq =
      calculate_self_investment_returns defaultParams lq :=
  c8_projectors_deterministic defaultParams defaultParams rfl rfl rfl rfl rfl
    rfl rfl rfl rfl rfl rfl rfl rfl rfl rfl rfl rfl rfl rfl rfl rfl rfl rfl
